import Mathlib

/-!
Verification development for the AUSPropertyDB ML service
(`apps/ml/main.py`): a FastAPI app with a feature extractor, a
best-effort redis prediction cache, a joblib model store, a predictor
with fallback heuristic, and a linear-regression trainer.

The embedding is shallow: Python floats become rationals (ℚ), the
redis cache becomes an explicit association list threaded through the
operations, exception-raising collaborators (redis connect/get/set,
joblib load, sklearn fit, pydantic parsing) become explicit outcome
values, and the filesystem effect of saving the artifact becomes a
trace of file operations.  `hashlib.md5` is embedded in full (RFC 1321)
over byte lists, with Python's `str(tuple_of_floats)` serialization
rendered through the canonical rational printer (injective decimal
rendering standing in for the injective float repr).
-/

namespace AUSML

/-- Mirrors the pydantic model `PropertyFeatures` (main.py lines 17-25):
every field is `Optional` with the listed default, so an absent field is
already the default at construction time while an explicit JSON `null`
arrives as `none`. -/
structure PropertyFeatures where
  bedrooms : Option Int := some 2
  bathrooms : Option Int := some 1
  parkingSpaces : Option Int := some 1
  landSizeM2 : Option ℚ := some 500
  buildingSizeM2 : Option ℚ := some 120
  lat : Option ℚ := some (-338688/10000)
  lng : Option ℚ := some (1512093/10000)
  convenienceScore : Option ℚ := some 50
deriving DecidableEq

/-- Models the Python expression `x or d` for an optional int field:
`None` and the falsy value `0` both give the default. -/
def pyOrInt (v : Option Int) (d : Int) : Int :=
  match v with
  | none => d
  | some x => if x = 0 then d else x

/-- Models the Python expression `x or d` for an optional float field:
`None` and the falsy value `0.0` both give the default. -/
def pyOrQ (v : Option ℚ) (d : ℚ) : ℚ :=
  match v with
  | none => d
  | some x => if x = 0 then d else x

/-- Embeds `extract_features` (main.py lines 47-58): the 8-element
feature vector in fixed order, each entry `field or default`. -/
def extract_features (p : PropertyFeatures) : List ℚ :=
  [ ((pyOrInt p.bedrooms 2 : Int) : ℚ)
  , ((pyOrInt p.bathrooms 1 : Int) : ℚ)
  , ((pyOrInt p.parkingSpaces 1 : Int) : ℚ)
  , pyOrQ p.landSizeM2 500
  , pyOrQ p.buildingSizeM2 120
  , pyOrQ p.lat (-338688/10000)
  , pyOrQ p.lng (1512093/10000)
  , pyOrQ p.convenienceScore 50
  ]

/-! ## MD5 (RFC 1321), embedded over byte lists

`predict` derives its cache key as
`"ml:predict:" + hashlib.md5(str(feat_tuple).encode()).hexdigest()`
(main.py lines 70-72). -/

/-- 2^32, the word modulus of MD5. -/
def M32 : Nat := 4294967296

/-- 2^128, the size of the MD5 digest space. -/
def M128 : Nat := 340282366920938463463374607431768211456

/-- Left-rotation of a 32-bit word held in a `Nat`. -/
def rotl32 (x s : Nat) : Nat := (x * 2 ^ s + x / 2 ^ (32 - s)) % M32

/-- Bitwise complement of a 32-bit word. -/
def not32 (x : Nat) : Nat := x ^^^ 4294967295

/-- MD5 round function F. -/
def mdF (b c d : Nat) : Nat := (b &&& c) ||| (not32 b &&& d)

/-- MD5 round function G. -/
def mdG (b c d : Nat) : Nat := (d &&& b) ||| (not32 d &&& c)

/-- MD5 round function H. -/
def mdH (b c d : Nat) : Nat := b ^^^ c ^^^ d

/-- MD5 round function I. -/
def mdI (b c d : Nat) : Nat := c ^^^ (b ||| not32 d)

/-- The 64 MD5 sine-derived constants K. -/
def mdK : List Nat :=
  [ 0xd76aa478, 0xe8c7b756, 0x242070db, 0xc1bdceee
  , 0xf57c0faf, 0x4787c62a, 0xa8304613, 0xfd469501
  , 0x698098d8, 0x8b44f7af, 0xffff5bb1, 0x895cd7be
  , 0x6b901122, 0xfd987193, 0xa679438e, 0x49b40821
  , 0xf61e2562, 0xc040b340, 0x265e5a51, 0xe9b6c7aa
  , 0xd62f105d, 0x02441453, 0xd8a1e681, 0xe7d3fbc8
  , 0x21e1cde6, 0xc33707d6, 0xf4d50d87, 0x455a14ed
  , 0xa9e3e905, 0xfcefa3f8, 0x676f02d9, 0x8d2a4c8a
  , 0xfffa3942, 0x8771f681, 0x6d9d6122, 0xfde5380c
  , 0xa4beea44, 0x4bdecfa9, 0xf6bb4b60, 0xbebfbc70
  , 0x289b7ec6, 0xeaa127fa, 0xd4ef3085, 0x04881d05
  , 0xd9d4d039, 0xe6db99e5, 0x1fa27cf8, 0xc4ac5665
  , 0xf4292244, 0x432aff97, 0xab9423a7, 0xfc93a039
  , 0x655b59c3, 0x8f0ccc92, 0xffeff47d, 0x85845dd1
  , 0x6fa87e4f, 0xfe2ce6e0, 0xa3014314, 0x4e0811a1
  , 0xf7537e82, 0xbd3af235, 0x2ad7d2bb, 0xeb86d391 ]

/-- The 64 MD5 per-round left-rotation amounts. -/
def mdS : List Nat :=
  [ 7, 12, 17, 22, 7, 12, 17, 22, 7, 12, 17, 22, 7, 12, 17, 22
  , 5, 9, 14, 20, 5, 9, 14, 20, 5, 9, 14, 20, 5, 9, 14, 20
  , 4, 11, 16, 23, 4, 11, 16, 23, 4, 11, 16, 23, 4, 11, 16, 23
  , 6, 10, 15, 21, 6, 10, 15, 21, 6, 10, 15, 21, 6, 10, 15, 21 ]

/-- The running MD5 state: four 32-bit words. -/
structure MD5St where
  a : Nat
  b : Nat
  c : Nat
  d : Nat
deriving DecidableEq

/-- One MD5 round `i` (0 ≤ i < 64) over the 16 message words `M`. -/
def md5Round (M : List Nat) (st : MD5St) (i : Nat) : MD5St :=
  let fg : Nat × Nat :=
    if i < 16 then (mdF st.b st.c st.d, i)
    else if i < 32 then (mdG st.b st.c st.d, (5 * i + 1) % 16)
    else if i < 48 then (mdH st.b st.c st.d, (3 * i + 5) % 16)
    else (mdI st.b st.c st.d, (7 * i) % 16)
  let tmp := (st.a + fg.1 + mdK.getD i 0 + M.getD fg.2 0) % M32
  ⟨st.d, (st.b + rotl32 tmp (mdS.getD i 0)) % M32, st.b, st.c⟩

/-- The 64 rounds of one MD5 block over message words `M`. -/
def md5Rounds (M : List Nat) (st : MD5St) : MD5St :=
  (List.range 64).foldl (md5Round M) st

/-- Little-endian bytes (length `n`) of a natural number. -/
def leBytes (n x : Nat) : List Nat :=
  (List.range n).map (fun i => x / 256 ^ i % 256)

/-- Decode a 64-byte block into its 16 little-endian 32-bit words. -/
def blockWords (block : List Nat) : List Nat :=
  (List.range 16).map (fun j =>
    block.getD (4 * j) 0 + block.getD (4 * j + 1) 0 * 256 +
    block.getD (4 * j + 2) 0 * 65536 + block.getD (4 * j + 3) 0 * 16777216)

/-- Process one 64-byte block: run the rounds and add into the state. -/
def md5Block (st : MD5St) (block : List Nat) : MD5St :=
  ⟨ (st.a + (md5Rounds (blockWords block) st).a) % M32
  , (st.b + (md5Rounds (blockWords block) st).b) % M32
  , (st.c + (md5Rounds (blockWords block) st).c) % M32
  , (st.d + (md5Rounds (blockWords block) st).d) % M32 ⟩

/-- MD5 padding: append `0x80`, zero-fill to 56 mod 64, then the
original bit length as 8 little-endian bytes. -/
def md5Pad (msg : List Nat) : List Nat :=
  let z := (56 + 64 - (msg.length + 1) % 64) % 64
  msg ++ [128] ++ List.replicate z 0 ++ leBytes 8 (8 * msg.length % 18446744073709551616)

/-- Split a byte list into consecutive 64-byte chunks. -/
def chunk64 (l : List Nat) : List (List Nat) :=
  if h : l = [] then []
  else l.take 64 :: chunk64 (l.drop 64)
termination_by l.length
decreasing_by
  simp only [List.length_drop]
  have hp : 0 < l.length := List.length_pos.mpr h
  omega

/-- The MD5 initial state. -/
def md5Init : MD5St := ⟨0x67452301, 0xefcdab89, 0x98badcfe, 0x10325476⟩

/-- The MD5 digest state of a byte message. -/
def md5Digest (msg : List Nat) : MD5St :=
  (chunk64 (md5Pad msg)).foldl md5Block md5Init

/-- The digest as one natural number below 2^128 (words little-endian
first, matching the byte order of the hex digest). -/
def md5Nat (st : MD5St) : Nat :=
  st.a + st.b * 4294967296 + st.c * 18446744073709551616 +
    st.d * 79228162514264337593543950336

/-- Lower-case hex character for a nibble. -/
def hexChar (n : Nat) : Char :=
  if n < 10 then Char.ofNat (48 + n) else Char.ofNat (87 + n)

/-- Two hex characters of a byte, high nibble first. -/
def hexPair (b : Nat) : List Char := [hexChar (b / 16 % 16), hexChar (b % 16)]

/-- The 16 digest bytes in Python `hexdigest` order: each state word
rendered little-endian, words in order a, b, c, d. -/
def digestBytes (st : MD5St) : List Nat :=
  leBytes 4 st.a ++ leBytes 4 st.b ++ leBytes 4 st.c ++ leBytes 4 st.d

/-- The 32-character lower-case hex digest string of an MD5 state. -/
def md5Hex (st : MD5St) : String :=
  String.mk ((digestBytes st).flatMap hexPair)

/-! ## Cache key derivation (main.py lines 70-72) -/

/-- ASCII bytes of a string, modelling Python's `str.encode()` (all the
strings hashed here are pure ASCII, where UTF-8 is the identity). -/
def strBytes (s : String) : List Nat := s.toList.map Char.toNat

/-- Models `str(feat_tuple)` for the extracted feature tuple: the
parenthesized, comma-separated decimal rendering of the entries, with
the canonical rational printer standing in for Python's (likewise
injective) float repr. -/
def featTupleStr (v : List ℚ) : String :=
  "(" ++ String.intercalate ", " (v.map (fun q => toString q)) ++ ")"

/-- Embeds the cache-key computation of `predict` (main.py line 72):
`"ml:predict:" + md5(str(feat_tuple).encode()).hexdigest()`. -/
def mlCacheKey (v : List ℚ) : String :=
  "ml:predict:" ++ md5Hex (md5Digest (strBytes (featTupleStr v)))

/-! ## Prediction results and the cache state

The redis store is embedded as an association list of
(key, stored result, expiry time) triples, newest first; `SET` with
`ex=3600` prepends (the first match wins on lookup, which is exactly
redis overwrite semantics), `GET` returns the first live entry, and
`DEL k` removes the entries whose key equals `k` exactly — redis `DEL`
takes literal key names and does no glob expansion. -/

/-- Mirrors the `result` dict built by `predict` (main.py lines
106-111) and the `PredictResponse` schema. -/
structure PredictionResult where
  price : ℚ
  confidence : ℚ
  model_version : String
  predicted_at : String
deriving DecidableEq

/-- One cached entry: key, stored result, absolute expiry instant. -/
def CacheState : Type := List (String × PredictionResult × Nat)

/-- Redis `GET` at time `now`: first entry with the key, `none` when
the entry has expired (redis drops a key when its TTL has elapsed). -/
def cacheLookup : CacheState → String → Nat → Option PredictionResult
  | [], _, _ => none
  | e :: rest, k, now =>
    if e.1 = k then (if now < e.2.2 then some e.2.1 else none)
    else cacheLookup rest k now

/-- Redis `SET key value ex=3600` issued at time `now`. -/
def cacheSet (st : CacheState) (k : String) (r : PredictionResult) (expiry : Nat) :
    CacheState :=
  (k, r, expiry) :: st

/-- Redis `DEL k`: removes exactly the entries whose key is the literal
string `k` (no pattern matching — the spec itself notes the store
"does not support pattern deletion"). -/
def cacheDelete : CacheState → String → CacheState
  | [], _ => []
  | e :: rest, k => if e.1 = k then cacheDelete rest k else e :: cacheDelete rest k

/-! ## Model artifact and the predictor (main.py lines 60-119) -/

/-- The fitted `StandardScaler`: per-feature mean and scale. -/
structure Scaler where
  mean : List ℚ
  scale : List ℚ
deriving DecidableEq

/-- The fitted `LinearRegression`: coefficients and intercept. -/
structure LinModel where
  coef : List ℚ
  intercept : ℚ
deriving DecidableEq

/-- The joblib artifact dict `{'model': ..., 'scaler': ...}` saved by
`train` (main.py line 152); the scaler entry may be absent. -/
structure ModelArtifact where
  model : LinModel
  scaler : Option Scaler
deriving DecidableEq

/-- `StandardScaler.transform`: elementwise `(x - mean) / scale`. -/
def scalerTransform (s : Scaler) (v : List ℚ) : List ℚ :=
  (v.zip (s.mean.zip s.scale)).map (fun t => (t.1 - t.2.1) / t.2.2)

/-- `LinearRegression.predict` on one sample: intercept plus the dot
product of the coefficients with the features. -/
def linPredict (m : LinModel) (v : List ℚ) : ℚ :=
  m.intercept + ((m.coef.zip v).map (fun t => t.1 * t.2)).sum

/-- The model branch of `predict` (main.py lines 86-96): apply the
scaler when present, then the regression. -/
def applyArtifact (a : ModelArtifact) (v : List ℚ) : ℚ :=
  linPredict a.model
    (match a.scaler with
     | some s => scalerTransform s v
     | none => v)

/-- `np.mean` of the feature vector. -/
def meanQ (v : List ℚ) : ℚ := v.sum / (v.length : ℚ)

/-- The environment a single `predict` request runs in: whether
`redis.from_url` succeeds, whether `GET` and `SET` reach the store
without raising, the current cache contents and clock, the state of
the model file (absent, present but raising on load, or loaded), and
the `datetime.utcnow().isoformat()` string of this instant. -/
structure PredictEnv where
  connectOk : Bool
  getOk : Bool
  setOk : Bool
  cache : CacheState
  now : Nat
  modelFile : Option (Except String ModelArtifact)
  timestamp : String

/-- The price/confidence computation of `predict` once the cache has
missed (main.py lines 84-104): the model path on a loadable artifact
(confidence 0.75), the fallback `mean * 1000` with confidence 0.3 when
the file is absent or loading raises. -/
def predictCompute (v : List ℚ) (mf : Option (Except String ModelArtifact)) :
    ℚ × ℚ :=
  match mf with
  | some (Except.ok a) => (applyArtifact a v, 3/4)
  | some (Except.error _) => (meanQ v * 1000, 3/10)
  | none => (meanQ v * 1000, 3/10)

/-- The cache-read phase of `predict` (main.py lines 64-79): a hit is
only possible when the connection was built and `GET` did not raise;
any failure is absorbed (`except: pass`) and treated as a miss. -/
def cacheHit (p : PropertyFeatures) (env : PredictEnv) : Option PredictionResult :=
  if env.connectOk && env.getOk then
    cacheLookup env.cache (mlCacheKey (extract_features p)) env.now
  else none

/-- Embeds `predict` (main.py lines 60-119): cache lookup, then the
model-or-fallback computation, then a best-effort `SET` with TTL 3600.
Returns the response together with the resulting cache state. -/
def predict (p : PropertyFeatures) (env : PredictEnv) :
    PredictionResult × CacheState :=
  match cacheHit p env with
  | some r => (r, env.cache)
  | none =>
    let pc := predictCompute (extract_features p) env.modelFile
    let result : PredictionResult :=
      ⟨pc.1, pc.2, "v1", env.timestamp⟩
    if env.connectOk && env.setOk then
      (result, cacheSet env.cache (mlCacheKey (extract_features p)) result (env.now + 3600))
    else (result, env.cache)

/-! ## Trainer (main.py lines 122-170) -/

/-- The file operations the trainer performs on the model store. -/
inductive FsOp where
  | write (path : String)
  | rename (src tgt : String)
deriving DecidableEq

/-- The well-known artifact path `models/model.joblib` (relative to the
working directory). -/
def modelPath : String := "models/model.joblib"

/-- Whether a concurrent reader of `target` can observe a half-written
file while this operation sequence runs: a plain `write` to `target`
is observable mid-write (the file is created/truncated and filled over
time), while `rename` is atomic (POSIX), which is the very model the
spec's "atomic replace semantics" appeals to. -/
def midWriteExposure : List FsOp → String → Bool
  | [], _ => false
  | FsOp.write p :: rest, t => p == t || midWriteExposure rest t
  | FsOp.rename _ _ :: rest, t => midWriteExposure rest t

/-- Modelled from the spec: section 4.5's atomic replace discipline —
"write to a temporary location, then atomically move into place" —
which the spec requires of `save` but which is not in the source
(main.py line 152 calls `joblib.dump` on the final path directly). -/
def atomicSaveOps (tmp target : String) : List FsOp :=
  [FsOp.write tmp, FsOp.rename tmp target]

/-- Mirrors the `TrainingData` payload (main.py lines 37-39); each
properties entry is the outcome of `PropertyFeatures(**p)` — a parsed
record, or the pydantic validation error that constructor raised. -/
structure TrainingData where
  properties : List (Except String PropertyFeatures)
  prices : List ℚ

/-- Sequence the per-item parses, first error winning (the first
raising constructor aborts the list comprehension in main.py line 139). -/
def parseProps : List (Except String PropertyFeatures) →
    Except String (List PropertyFeatures)
  | [] => Except.ok []
  | Except.error e :: _ => Except.error e
  | Except.ok p :: rest =>
    match parseProps rest with
    | Except.error e => Except.error e
    | Except.ok ps => Except.ok (p :: ps)

/-- The structured result dict `train` returns (main.py lines 132-170):
exactly one of the message/error fields is populated on failure. -/
structure TrainResult where
  trained : Bool
  message : Option String := none
  error : Option String := none
  samples : Option Nat := none
  r_squared : Option ℚ := none
deriving DecidableEq

/-- The environment a `train` request runs in: the outcome of
`os.makedirs(model_dir, exist_ok=True)` (main.py line 129) — `ok` or
the OSError it raises, e.g. on a read-only filesystem or when a
regular file named `models` exists — whether the redis connection
(and the DEL) succeed, the cache contents, and the outcome of the
numeric fitting pipeline (scaler fit, regression fit, R² and the dump
serialization) — an `Except` so that any exception sklearn or joblib
raises is a value the `try` of `train` can observe. -/
structure TrainEnv where
  makedirs : Except String Unit
  connectOk : Bool
  cache : CacheState
  fit : List (List ℚ) → List ℚ → Except String (ModelArtifact × ℚ)

/-- Embeds the `try` block of `train` (main.py lines 131-168), which
is total because every exception raised inside it is caught by the
`except` at line 169: empty-data check first, then length mismatch,
then parse + fit with every raised error returned as a
`trained: false` body; on success the artifact is written (one direct
`joblib.dump` to the final path), the literal key `ml:predict:*` is
deleted best-effort, and a success body returned.  Result: the
response, the new cache state, and the file-op trace. -/
def trainBody (d : TrainingData) (env : TrainEnv) :
    TrainResult × CacheState × List FsOp :=
  if d.properties.isEmpty || d.prices.isEmpty then
    (⟨false, some "No data provided", none, none, none⟩, env.cache, [])
  else if d.properties.length ≠ d.prices.length then
    (⟨false, some "Mismatch: properties and prices length differ", none, none, none⟩,
      env.cache, [])
  else
    match parseProps d.properties with
    | Except.error e => (⟨false, none, some e, none, none⟩, env.cache, [])
    | Except.ok props =>
      match env.fit (props.map extract_features) d.prices with
      | Except.error e => (⟨false, none, some e, none, none⟩, env.cache, [])
      | Except.ok (_, r2) =>
        (⟨true, none, none, some d.properties.length, some r2⟩,
          if env.connectOk then cacheDelete env.cache "ml:predict:*" else env.cache,
          [FsOp.write modelPath])

/-- Embeds the whole `train` handler (main.py lines 122-170): the
`os.makedirs` call at line 129 runs BEFORE the `try` that starts at
line 131, so an OSError raised there propagates out of the handler
uncaught — that is the `Except.error` result here, a crash the caller
sees.  Only when `makedirs` succeeds does the caught body run. -/
def train (d : TrainingData) (env : TrainEnv) :
    Except String (TrainResult × CacheState × List FsOp) :=
  match env.makedirs with
  | Except.error e => Except.error e
  | Except.ok _ => Except.ok (trainBody d env)

/-! ## Spec-side definition for the extraction claim -/

/-- The value of an optional int field as the spec's words describe it:
the default only for an absent or null field, the given value otherwise. -/
def claimedValInt (v : Option Int) (d : Int) : Int :=
  match v with
  | none => d
  | some x => x

/-- The value of an optional float field as the spec's words describe it. -/
def claimedValQ (v : Option ℚ) (d : ℚ) : ℚ :=
  match v with
  | none => d
  | some x => x

/-- Modelled from the spec: the extraction the claim describes —
"each absent or null field is replaced by its default and each present
value is used as given" — to be compared against `extract_features`. -/
def claimedExtract (p : PropertyFeatures) : List ℚ :=
  [ ((claimedValInt p.bedrooms 2 : Int) : ℚ)
  , ((claimedValInt p.bathrooms 1 : Int) : ℚ)
  , ((claimedValInt p.parkingSpaces 1 : Int) : ℚ)
  , claimedValQ p.landSizeM2 500
  , claimedValQ p.buildingSizeM2 120
  , claimedValQ p.lat (-338688/10000)
  , claimedValQ p.lng (1512093/10000)
  , claimedValQ p.convenienceScore 50
  ]

/-! ## Concrete instances used in closed theorems -/

/-- A pigeonhole family of requests: request `n` carries `n + 1`
bedrooms and defaults elsewhere, so distinct `n` resolve to distinct
feature vectors. -/
def famProp (n : Nat) : PropertyFeatures := { bedrooms := some ((n : Int) + 1) }

/-- Invariant the MD5 state maintains: all four words below 2^32. -/
def boundedSt (st : MD5St) : Prop :=
  st.a < M32 ∧ st.b < M32 ∧ st.c < M32 ∧ st.d < M32

/-- The cache key of the all-defaults request. -/
def keyDefault : String := mlCacheKey (extract_features {})

/-- A prediction result cached before a training run. -/
def rStale : PredictionResult := ⟨1, 3/4, "v1", "2026-01-01T00:00:00"⟩

/-- A cache holding one prediction for the all-defaults vector. -/
def staleCache : CacheState := [(keyDefault, rStale, 1000000)]

/-- A fitting pipeline that succeeds (sklearn on well-formed numeric
data), returning a degenerate artifact and R² = 1. -/
def fitOk : List (List ℚ) → List ℚ → Except String (ModelArtifact × ℚ) :=
  fun _ _ => Except.ok (⟨⟨[0, 0, 0, 0, 0, 0, 0, 0], 0⟩, none⟩, 1)

/-- A one-sample training payload. -/
def oneSample : TrainingData := ⟨[Except.ok {}], [750000]⟩

/-- A training environment whose `os.makedirs` and redis connection
work and whose cache still holds `staleCache`. -/
def trainEnvStale : TrainEnv := ⟨Except.ok (), true, staleCache, fitOk⟩

/-- A training environment where `os.makedirs(model_dir, exist_ok=True)`
raises — a regular file named `models` occupies the path. -/
def trainEnvMkdirFail : TrainEnv :=
  ⟨Except.error "OSError: models exists and is not a directory", false, [], fitOk⟩

/-- A model-derived prediction (confidence 0.75) sitting in the cache. -/
def rCached : PredictionResult := ⟨123456, 3/4, "v1", "2026-01-01T00:00:00"⟩

/-- A predict environment with a live cache hit for the all-defaults
request and no model artifact on disk. -/
def envHitNoModel : PredictEnv :=
  ⟨true, true, true, [(keyDefault, rCached, 10)], 0, none, "2026-02-02T00:00:00"⟩

/-- An artifact whose scaler is the identity and whose regression
returns `5 + bedrooms`. -/
def artW : ModelArtifact :=
  ⟨⟨[1, 0, 0, 0, 0, 0, 0, 0], 5⟩, some ⟨[0, 0, 0, 0, 0, 0, 0, 0], [1, 1, 1, 1, 1, 1, 1, 1]⟩⟩

/-! ## Helper lemmas -/

theorem md5Block_bounded (st : MD5St) (block : List Nat) :
    boundedSt (md5Block st block) := by
  refine ⟨?_, ?_, ?_, ?_⟩ <;> exact Nat.mod_lt _ (by decide)

theorem boundedSt_foldl (bs : List (List Nat)) (st : MD5St) (h : boundedSt st) :
    boundedSt (bs.foldl md5Block st) := by
  induction bs generalizing st with
  | nil => exact h
  | cons b rest ih => exact ih _ (md5Block_bounded _ _)

theorem md5Digest_bounded (msg : List Nat) : boundedSt (md5Digest msg) :=
  boundedSt_foldl _ _ (by refine ⟨?_, ?_, ?_, ?_⟩ <;> decide)

theorem md5Nat_lt (st : MD5St) (h : boundedSt st) : md5Nat st < M128 := by
  obtain ⟨h1, h2, h3, h4⟩ := h
  have h1' : st.a < 4294967296 := h1
  have h2' : st.b < 4294967296 := h2
  have h3' : st.c < 4294967296 := h3
  have h4' : st.d < 4294967296 := h4
  show st.a + st.b * 4294967296 + st.c * 18446744073709551616 +
    st.d * 79228162514264337593543950336 < 340282366920938463463374607431768211456
  omega

theorem md5Nat_inj (st1 st2 : MD5St) (h1 : boundedSt st1) (h2 : boundedSt st2)
    (he : md5Nat st1 = md5Nat st2) : st1 = st2 := by
  obtain ⟨a1, b1, c1, d1⟩ := st1
  obtain ⟨a2, b2, c2, d2⟩ := st2
  obtain ⟨ha1, hb1, hc1, hd1⟩ := h1
  obtain ⟨ha2, hb2, hc2, hd2⟩ := h2
  have ha1' : a1 < 4294967296 := ha1
  have hb1' : b1 < 4294967296 := hb1
  have hc1' : c1 < 4294967296 := hc1
  have hd1' : d1 < 4294967296 := hd1
  have ha2' : a2 < 4294967296 := ha2
  have hb2' : b2 < 4294967296 := hb2
  have hc2' : c2 < 4294967296 := hc2
  have hd2' : d2 < 4294967296 := hd2
  have he' : a1 + b1 * 4294967296 + c1 * 18446744073709551616 +
      d1 * 79228162514264337593543950336 =
      a2 + b2 * 4294967296 + c2 * 18446744073709551616 +
      d2 * 79228162514264337593543950336 := he
  simp only [MD5St.mk.injEq]
  refine ⟨?_, ?_, ?_, ?_⟩ <;> omega

theorem length_flatMap_hexPair (l : List Nat) :
    (l.flatMap hexPair).length = 2 * l.length := by
  induction l with
  | nil => rfl
  | cons x xs ih =>
    simp only [List.flatMap_cons, List.length_append, List.length_cons, ih, hexPair,
      List.length_nil]
    omega

theorem length_digestBytes (st : MD5St) : (digestBytes st).length = 16 := by
  simp [digestBytes, leBytes]

theorem md5Hex_length (st : MD5St) : (md5Hex st).length = 32 := by
  have h : (md5Hex st).length = ((digestBytes st).flatMap hexPair).length := rfl
  rw [h, length_flatMap_hexPair, length_digestBytes]

theorem mlCacheKey_length (v : List ℚ) : (mlCacheKey v).length = 43 := by
  rw [mlCacheKey, String.length_append, md5Hex_length]
  decide

theorem mlCacheKey_ne_star (v : List ℚ) : mlCacheKey v ≠ "ml:predict:*" := by
  intro h
  have hl := congrArg String.length h
  rw [mlCacheKey_length] at hl
  exact absurd hl (by decide)

theorem extract_famProp_head (n : Nat) :
    (extract_features (famProp n)).head? = some (((n : Int) + 1 : Int) : ℚ) := by
  have hne : ((n : Int) + 1) ≠ 0 := by omega
  simp [extract_features, famProp, pyOrInt, hne]

theorem extract_famProp_inj {m n : Nat}
    (h : extract_features (famProp m) = extract_features (famProp n)) : m = n := by
  have hm := extract_famProp_head m
  have hn := extract_famProp_head n
  rw [h, hn] at hm
  have : ((n : Int) + 1 : Int) = ((m : Int) + 1 : Int) := by
    exact_mod_cast Option.some.inj hm
  omega

theorem cacheLookup_delete (st : CacheState) (k lit : String) (now : Nat)
    (h : k ≠ lit) :
    cacheLookup (cacheDelete st lit) k now = cacheLookup st k now := by
  induction st with
  | nil => rfl
  | cons e rest ih =>
    by_cases he : e.1 = lit
    · have hkl : ¬ lit = k := fun hh => h hh.symm
      simp [cacheDelete, cacheLookup, he, hkl, ih]
    · simp [cacheDelete, cacheLookup, he, ih]

/-! ## Claims -/

/-- C3: the claim says `extract_features` substitutes the default only
for absent or null fields and uses every present value as given.  The
code substitutes for falsy values too: a property with zero bedrooms
extracts to the default 2, not the given 0 — `claimedExtract` (the
spec's wording) and `extract_features` (the code) disagree there. -/
theorem extract_zero_field_refutes_claim :
    (extract_features { bedrooms := some 0 })[0]? = (some 2 : Option ℚ) ∧
    (claimedExtract { bedrooms := some 0 })[0]? = (some 0 : Option ℚ) ∧
    extract_features { bedrooms := some 0 } ≠ claimedExtract { bedrooms := some 0 } := by
  refine ⟨by norm_num [extract_features, pyOrInt],
    by norm_num [claimedExtract, claimedValInt], ?_⟩
  intro h
  have h0 := congrArg (fun l => l[0]?) h
  norm_num [extract_features, claimedExtract, pyOrInt, claimedValInt] at h0

/-- C3 (amended): `extract_features` is total and returns the
8-element vector in the fixed documented order, where each absent,
null, or zero-valued field is replaced by its default and each
present nonzero value is used as given. -/
theorem extract_features_defaults (p : PropertyFeatures) :
    (extract_features p).length = 8 ∧
    ((p.bedrooms = none ∨ p.bedrooms = some 0) →
      (extract_features p)[0]? = (some 2 : Option ℚ)) ∧
    (∀ x : Int, x ≠ 0 → p.bedrooms = some x →
      (extract_features p)[0]? = (some (x : ℚ) : Option ℚ)) ∧
    ((p.bathrooms = none ∨ p.bathrooms = some 0) →
      (extract_features p)[1]? = (some 1 : Option ℚ)) ∧
    (∀ x : Int, x ≠ 0 → p.bathrooms = some x →
      (extract_features p)[1]? = (some (x : ℚ) : Option ℚ)) ∧
    ((p.parkingSpaces = none ∨ p.parkingSpaces = some 0) →
      (extract_features p)[2]? = (some 1 : Option ℚ)) ∧
    (∀ x : Int, x ≠ 0 → p.parkingSpaces = some x →
      (extract_features p)[2]? = (some (x : ℚ) : Option ℚ)) ∧
    ((p.landSizeM2 = none ∨ p.landSizeM2 = some 0) →
      (extract_features p)[3]? = (some 500 : Option ℚ)) ∧
    (∀ x : ℚ, x ≠ 0 → p.landSizeM2 = some x → (extract_features p)[3]? = some x) ∧
    ((p.buildingSizeM2 = none ∨ p.buildingSizeM2 = some 0) →
      (extract_features p)[4]? = (some 120 : Option ℚ)) ∧
    (∀ x : ℚ, x ≠ 0 → p.buildingSizeM2 = some x → (extract_features p)[4]? = some x) ∧
    ((p.lat = none ∨ p.lat = some 0) →
      (extract_features p)[5]? = (some (-338688/10000 : ℚ) : Option ℚ)) ∧
    (∀ x : ℚ, x ≠ 0 → p.lat = some x → (extract_features p)[5]? = some x) ∧
    ((p.lng = none ∨ p.lng = some 0) →
      (extract_features p)[6]? = (some (1512093/10000 : ℚ) : Option ℚ)) ∧
    (∀ x : ℚ, x ≠ 0 → p.lng = some x → (extract_features p)[6]? = some x) ∧
    ((p.convenienceScore = none ∨ p.convenienceScore = some 0) →
      (extract_features p)[7]? = (some 50 : Option ℚ)) ∧
    (∀ x : ℚ, x ≠ 0 → p.convenienceScore = some x → (extract_features p)[7]? = some x) := by
  refine ⟨by simp [extract_features], ?_, ?_, ?_, ?_, ?_, ?_, ?_, ?_, ?_, ?_, ?_, ?_, ?_,
    ?_, ?_, ?_⟩
  · rintro (h | h) <;> simp [extract_features, pyOrInt, h]
  · intro x hx h
    simp [extract_features, pyOrInt, h, hx]
  · rintro (h | h) <;> simp [extract_features, pyOrInt, h]
  · intro x hx h
    simp [extract_features, pyOrInt, h, hx]
  · rintro (h | h) <;> simp [extract_features, pyOrInt, h]
  · intro x hx h
    simp [extract_features, pyOrInt, h, hx]
  · rintro (h | h) <;> simp [extract_features, pyOrQ, h]
  · intro x hx h
    simp [extract_features, pyOrQ, h, hx]
  · rintro (h | h) <;> simp [extract_features, pyOrQ, h]
  · intro x hx h
    simp [extract_features, pyOrQ, h, hx]
  · rintro (h | h) <;> simp [extract_features, pyOrQ, h]
  · intro x hx h
    simp [extract_features, pyOrQ, h, hx]
  · rintro (h | h) <;> simp [extract_features, pyOrQ, h]
  · intro x hx h
    simp [extract_features, pyOrQ, h, hx]
  · rintro (h | h) <;> simp [extract_features, pyOrQ, h]
  · intro x hx h
    simp [extract_features, pyOrQ, h, hx]

/-- C3 (witness): the amended extraction facts at concrete inputs — a
null bedrooms field extracts to the default 2, an explicit 5 is used
as given. -/
theorem extract_features_defaults_witness :
    (extract_features { bedrooms := none })[0]? = (some 2 : Option ℚ) ∧
    (extract_features { bedrooms := some 5 })[0]? = (some ((5 : Int) : ℚ) : Option ℚ) :=
  ⟨(extract_features_defaults { bedrooms := none }).2.1 (Or.inl rfl),
   (extract_features_defaults { bedrooms := some 5 }).2.2.1 5 (by decide) rfl⟩

/-- C9: `extract_features` substitutes the default for every falsy
field value — a field explicitly set to zero extracts exactly like an
absent/null field, and the resulting entry is that field's default. -/
theorem extract_zero_is_default (p : PropertyFeatures) :
    (extract_features { p with bedrooms := some 0 } =
        extract_features { p with bedrooms := none } ∧
      (extract_features { p with bedrooms := some 0 })[0]? = (some 2 : Option ℚ)) ∧
    (extract_features { p with bathrooms := some 0 } =
        extract_features { p with bathrooms := none } ∧
      (extract_features { p with bathrooms := some 0 })[1]? = (some 1 : Option ℚ)) ∧
    (extract_features { p with parkingSpaces := some 0 } =
        extract_features { p with parkingSpaces := none } ∧
      (extract_features { p with parkingSpaces := some 0 })[2]? = (some 1 : Option ℚ)) ∧
    (extract_features { p with landSizeM2 := some 0 } =
        extract_features { p with landSizeM2 := none } ∧
      (extract_features { p with landSizeM2 := some 0 })[3]? = (some 500 : Option ℚ)) ∧
    (extract_features { p with buildingSizeM2 := some 0 } =
        extract_features { p with buildingSizeM2 := none } ∧
      (extract_features { p with buildingSizeM2 := some 0 })[4]? = (some 120 : Option ℚ)) ∧
    (extract_features { p with lat := some 0 } =
        extract_features { p with lat := none } ∧
      (extract_features { p with lat := some 0 })[5]? = (some (-338688/10000 : ℚ) : Option ℚ)) ∧
    (extract_features { p with lng := some 0 } =
        extract_features { p with lng := none } ∧
      (extract_features { p with lng := some 0 })[6]? = (some (1512093/10000 : ℚ) : Option ℚ)) ∧
    (extract_features { p with convenienceScore := some 0 } =
        extract_features { p with convenienceScore := none } ∧
      (extract_features { p with convenienceScore := some 0 })[7]? = (some 50 : Option ℚ)) := by
  refine ⟨⟨?_, ?_⟩, ⟨?_, ?_⟩, ⟨?_, ?_⟩, ⟨?_, ?_⟩, ⟨?_, ?_⟩, ⟨?_, ?_⟩, ⟨?_, ?_⟩, ⟨?_, ?_⟩⟩ <;>
    simp [extract_features, pyOrInt, pyOrQ]

/-- C8 (counterexample): cache-key derivation is not collision-free —
the key space is the 2^128 MD5 digests while distinct resolved feature
vectors are more numerous, so by pigeonhole two requests with distinct
resolved feature vectors share a cache key. -/
theorem cache_key_collision_exists :
    ∃ p q : PropertyFeatures,
      extract_features p ≠ extract_features q ∧
      mlCacheKey (extract_features p) = mlCacheKey (extract_features q) := by
  have hcard : (Finset.range M128).card < (Finset.range (M128 + 1)).card := by
    simp
  have hmap : ∀ n ∈ Finset.range (M128 + 1),
      md5Nat (md5Digest (strBytes (featTupleStr (extract_features (famProp n))))) ∈
        Finset.range M128 := by
    intro n _
    exact Finset.mem_range.mpr (md5Nat_lt _ (md5Digest_bounded _))
  obtain ⟨x, _, y, _, hxy, hfeq⟩ :=
    Finset.exists_ne_map_eq_of_card_lt_of_maps_to hcard hmap
  refine ⟨famProp x, famProp y, ?_, ?_⟩
  · intro h
    exact hxy (extract_famProp_inj h)
  · have hst := md5Nat_inj _ _ (md5Digest_bounded _) (md5Digest_bounded _) hfeq
    simp [mlCacheKey, hst]

/-- C8 (amended): key derivation is deterministic — any two requests
whose resolved feature vectors are equal derive the same cache key
(collision-freedom across distinct vectors cannot hold, see the
counterexample). -/
theorem cache_key_deterministic (p q : PropertyFeatures)
    (h : extract_features p = extract_features q) :
    mlCacheKey (extract_features p) = mlCacheKey (extract_features q) := by
  rw [h]

/-- C8 (witness): two syntactically different requests — all-defaults
versus an explicit zero bedrooms field — resolve to the same vector
and hence the same cache key. -/
theorem cache_key_deterministic_witness :
    mlCacheKey (extract_features {}) =
      mlCacheKey (extract_features { bedrooms := some 0 }) :=
  cache_key_deterministic {} { bedrooms := some 0 } (by simp [extract_features, pyOrInt])

/-- C1: a successful train call does not invalidate previously cached
predictions — the code issues `DEL` on the literal key `ml:predict:*`,
which matches no derived cache key (every derived key has length 43),
so the entry cached for the all-defaults vector is still returned
after training reports `trained: true`. -/
theorem train_leaves_cache_entries :
    train oneSample trainEnvStale = Except.ok (trainBody oneSample trainEnvStale) ∧
    (trainBody oneSample trainEnvStale).1.trained = true ∧
    cacheLookup (trainBody oneSample trainEnvStale).2.1 keyDefault 0 = some rStale := by
  refine ⟨rfl, rfl, ?_⟩
  have hstep : (trainBody oneSample trainEnvStale).2.1 =
      cacheDelete staleCache "ml:predict:*" := rfl
  rw [hstep]
  simp only [keyDefault]
  rw [cacheLookup_delete _ _ _ _ (mlCacheKey_ne_star _)]
  simp [staleCache, cacheLookup, keyDefault]

/-- C2 (counterexample): with no model artifact on disk but a live
cached entry for the request's vector, `predict` returns the cached
result (confidence 0.75) rather than the fallback confidence 0.30 the
claim promises for every no-artifact call. -/
theorem predict_cache_hit_overrides_fallback :
    envHitNoModel.modelFile = none ∧
    (predict {} envHitNoModel).1 = rCached ∧
    rCached.confidence ≠ 3/10 := by
  refine ⟨rfl, ?_, by norm_num [rCached]⟩
  have hh : cacheHit {} envHitNoModel = some rCached := by
    simp [cacheHit, envHitNoModel, cacheLookup, keyDefault]
  simp only [predict, hh]

/-- C2 (amended): on a cache miss (including every cache failure,
which reads as a miss), whenever no artifact exists or loading raises,
`predict` returns price = mean(vector) × 1000 with confidence exactly
0.30; the function is total, so no exception reaches the caller. -/
theorem predict_fallback_mean (p : PropertyFeatures) (env : PredictEnv)
    (hmiss : cacheHit p env = none)
    (hmf : env.modelFile = none ∨ ∃ e, env.modelFile = some (Except.error e)) :
    (predict p env).1 =
      ⟨meanQ (extract_features p) * 1000, 3/10, "v1", env.timestamp⟩ := by
  rcases hmf with hmf | ⟨e, hmf⟩ <;>
    by_cases hs : (env.connectOk && env.setOk) = true <;>
      simp [predict, hmiss, hmf, hs, predictCompute]

/-- C2 (witness): the fallback equality at a concrete request with an
unavailable cache and no model file. -/
theorem predict_fallback_mean_witness :
    (predict {} ⟨false, false, false, [], 0, none, "t"⟩).1 =
      ⟨meanQ (extract_features {}) * 1000, 3/10, "v1", "t"⟩ :=
  predict_fallback_mean {} ⟨false, false, false, [], 0, none, "t"⟩ rfl (Or.inl rfl)

/-- C4: when the artifact file exists and loads without error, a
cache-missing `predict` returns confidence exactly 0.75 and the price
obtained by applying the stored scaler (when present) and then the
stored regression to the feature vector. -/
theorem predict_model_path (p : PropertyFeatures) (env : PredictEnv)
    (a : ModelArtifact) (hmf : env.modelFile = some (Except.ok a))
    (hmiss : cacheHit p env = none) :
    (predict p env).1 =
      ⟨applyArtifact a (extract_features p), 3/4, "v1", env.timestamp⟩ := by
  by_cases hs : (env.connectOk && env.setOk) = true <;>
    simp [predict, hmiss, hmf, hs, predictCompute]

/-- C4 (witness): the model path at a concrete artifact — identity
scaler, regression 5 + bedrooms — on the all-defaults request: price 7,
confidence 0.75. -/
theorem predict_model_path_witness :
    (predict {} ⟨false, false, false, [], 0, some (Except.ok artW), "t"⟩).1 =
      ⟨applyArtifact artW (extract_features {}), 3/4, "v1", "t"⟩ ∧
    applyArtifact artW (extract_features {}) = 7 :=
  ⟨predict_model_path {} ⟨false, false, false, [], 0, some (Except.ok artW), "t"⟩ artW rfl rfl,
   by norm_num [applyArtifact, artW, extract_features, pyOrInt, pyOrQ, linPredict,
     scalerTransform, List.zip]⟩

/-- The caught region of train (the `try` body) does validate in
order with first failure winning and returns every error raised
inside it as a `trained: false` body — the behavior the claim
describes holds everywhere except the `os.makedirs` call that sits
before the `try`. -/
theorem trainBody_validation (d : TrainingData) (env : TrainEnv) :
    ((d.properties = [] ∨ d.prices = []) →
      (trainBody d env).1 = ⟨false, some "No data provided", none, none, none⟩) ∧
    (d.properties ≠ [] → d.prices ≠ [] → d.properties.length ≠ d.prices.length →
      (trainBody d env).1 =
        ⟨false, some "Mismatch: properties and prices length differ", none, none, none⟩) ∧
    (∀ e : String, d.properties ≠ [] → d.prices ≠ [] →
      d.properties.length = d.prices.length →
      parseProps d.properties = Except.error e →
      (trainBody d env).1 = ⟨false, none, some e, none, none⟩) ∧
    (∀ (e : String) (props : List PropertyFeatures), d.properties ≠ [] → d.prices ≠ [] →
      d.properties.length = d.prices.length →
      parseProps d.properties = Except.ok props →
      env.fit (props.map extract_features) d.prices = Except.error e →
      (trainBody d env).1 = ⟨false, none, some e, none, none⟩) := by
  refine ⟨?_, ?_, ?_, ?_⟩
  · rintro (h | h) <;> simp [trainBody, h]
  · intro h1 h2 h3
    simp [trainBody, h1, h2, h3]
  · intro e h1 h2 h3 hp
    simp [trainBody, h1, h2, h3, hp]
  · intro e props h1 h2 h3 hp hf
    simp [trainBody, h1, h2, h3, hp, hf]

/-- C5: the claim says train never raises and catches any unexpected
internal error, but `os.makedirs(model_dir, exist_ok=True)` (main.py
line 129) runs before the `try` begins at line 131 — when it raises
an OSError (read-only filesystem, or a regular file named `models`),
the exception propagates out of the handler uncaught instead of
becoming a structured `trained: false` body: the evaluation below
shows the crash on a payload that would otherwise train fine, and
that no structured result of any kind is returned. -/
theorem train_makedirs_uncaught :
    train oneSample trainEnvMkdirFail =
      Except.error "OSError: models exists and is not a directory" ∧
    ∀ r : TrainResult × CacheState × List FsOp,
      train oneSample trainEnvMkdirFail ≠ Except.ok r := by
  refine ⟨rfl, ?_⟩
  intro r h
  simp [train, trainEnvMkdirFail] at h

/-- C6: saving the artifact is not atomic-replace — a successful train
performs exactly one direct write to the final artifact path (no
temporary file, no rename), so a concurrent reader can observe a
half-written artifact; the spec's own atomic discipline (temp write
then rename) has no such exposure. -/
theorem train_save_not_atomic :
    train oneSample trainEnvStale = Except.ok (trainBody oneSample trainEnvStale) ∧
    (trainBody oneSample trainEnvStale).1.trained = true ∧
    (trainBody oneSample trainEnvStale).2.2 = [FsOp.write modelPath] ∧
    midWriteExposure (trainBody oneSample trainEnvStale).2.2 modelPath = true ∧
    midWriteExposure (atomicSaveOps "models/model.joblib.tmp" modelPath) modelPath
      = false := by
  refine ⟨rfl, rfl, rfl, by decide, by decide⟩

/-- C7: the cache layer is best-effort — a failed connection yields
the freshly computed result and an untouched cache, a failed read acts
as a miss, a failed write leaves the cache unchanged, and the train
response does not depend on whether the cache connection worked; all
four operations are total, so no cache failure fails the request. -/
theorem cache_best_effort (p : PropertyFeatures) (env : PredictEnv)
    (d : TrainingData) (cache : CacheState) (mk : Except String Unit)
    (fit : List (List ℚ) → List ℚ → Except String (ModelArtifact × ℚ)) (b1 b2 : Bool) :
    (env.connectOk = false →
      predict p env =
        (⟨(predictCompute (extract_features p) env.modelFile).1,
          (predictCompute (extract_features p) env.modelFile).2, "v1", env.timestamp⟩,
         env.cache)) ∧
    (env.getOk = false →
      (predict p env).1 =
        ⟨(predictCompute (extract_features p) env.modelFile).1,
         (predictCompute (extract_features p) env.modelFile).2, "v1", env.timestamp⟩) ∧
    (env.setOk = false → (predict p env).2 = env.cache) ∧
    (train d ⟨mk, b1, cache, fit⟩).map (fun r => r.1) =
      (train d ⟨mk, b2, cache, fit⟩).map (fun r => r.1) := by
  refine ⟨?_, ?_, ?_, ?_⟩
  · intro h
    simp [predict, cacheHit, h]
  · intro h
    by_cases hs : (env.connectOk && env.setOk) = true <;>
      simp [predict, cacheHit, h, hs]
  · intro h
    cases hc : cacheHit p env <;> simp [predict, hc, h]
  · cases mk with
    | error e => simp [train]
    | ok u =>
      simp only [train, Except.map]
      by_cases h1 : (d.properties.isEmpty || d.prices.isEmpty) = true
      · simp [trainBody, h1]
      · by_cases h2 : d.properties.length ≠ d.prices.length
        · simp [trainBody, h1, h2]
        · cases hp : parseProps d.properties with
          | error e => simp [trainBody, h1, h2, hp]
          | ok props =>
            cases hf : fit (props.map extract_features) d.prices with
            | error e => simp [trainBody, h1, h2, hp, hf]
            | ok ar => simp [trainBody, h1, h2, hp, hf]

/-- C7 (witness): a failed connection at a concrete request returns
the computed fallback with the cache untouched, and a concrete train
result is identical with and without a working cache connection. -/
theorem cache_best_effort_witness :
    predict {} ⟨false, true, true, [], 0, none, "t"⟩ =
      (⟨(predictCompute (extract_features {}) none).1,
        (predictCompute (extract_features {}) none).2, "v1", "t"⟩, []) ∧
    (train oneSample ⟨Except.ok (), true, [], fitOk⟩).map (fun r => r.1) =
      (train oneSample ⟨Except.ok (), false, [], fitOk⟩).map (fun r => r.1) :=
  ⟨(cache_best_effort {} ⟨false, true, true, [], 0, none, "t"⟩ oneSample [] (Except.ok ())
      fitOk true false).1 rfl,
   (cache_best_effort {} ⟨false, true, true, [], 0, none, "t"⟩ oneSample [] (Except.ok ())
      fitOk true false).2.2.2⟩

/-- C10: a cache hit is returned verbatim — the stored result with its
original timestamp, confidence and version, independent of the current
model file — and after a miss that stored its result, any repeat of
the request within the 3600-second TTL (with any model file and any
clock string) returns exactly the first response. -/
theorem cache_hit_verbatim (p : PropertyFeatures) (env : PredictEnv)
    (r : PredictionResult) (now2 : Nat) (ts2 : String)
    (mf2 : Option (Except String ModelArtifact)) (s2 : Bool) :
    (cacheHit p env = some r → predict p env = (r, env.cache)) ∧
    (cacheHit p env = none → env.connectOk = true → env.setOk = true →
      now2 < env.now + 3600 →
      predict p ⟨true, true, s2, (predict p env).2, now2, mf2, ts2⟩ =
        ((predict p env).1, (predict p env).2)) := by
  constructor
  · intro h
    simp [predict, h]
  · intro hmiss hc hs ht
    have hp : predict p env =
        (⟨(predictCompute (extract_features p) env.modelFile).1,
          (predictCompute (extract_features p) env.modelFile).2, "v1", env.timestamp⟩,
         cacheSet env.cache (mlCacheKey (extract_features p))
           ⟨(predictCompute (extract_features p) env.modelFile).1,
            (predictCompute (extract_features p) env.modelFile).2, "v1", env.timestamp⟩
           (env.now + 3600)) := by
      simp [predict, hmiss, hc, hs]
    rw [hp]
    simp [predict, cacheHit, cacheSet, cacheLookup, ht]

/-- C10 (witness): a concrete hit — the cached 0.75-confidence entry —
is returned verbatim with the cache unchanged, even though no model
file exists in the environment. -/
theorem cache_hit_verbatim_witness :
    predict {} envHitNoModel = (rCached, envHitNoModel.cache) :=
  (cache_hit_verbatim {} envHitNoModel rCached 0 "" none true).1
    (by simp [cacheHit, envHitNoModel, cacheLookup, keyDefault])

end AUSML
